import Mathlib

/-!
Verification of the FaceSwap repository against its specification.

Shallow embedding conventions: tensors of discriminator scores become lists of
rationals and the tensor mean becomes an explicit sum-over-length; the generator,
the discriminator and the gradient penalty stay opaque functions; the bookkeeping
of the training loops (loss accumulation, fade-in counters, optimizer and mode
calls) is embedded as explicit state passing plus an event trace listing the
framework calls issued per batch.
-/

/-- Arithmetic mean of a list of rationals, the shallow embedding of the tensor
mean reduction used throughout the training code. -/
def tmean (l : List ℚ) : ℚ := l.sum / l.length

namespace CPGGAN

/-- The literal 1e-10 of CPGGAN.py line 77. -/
def epsTiny : ℚ := 1 / 10 ^ 10

/-- CPGGAN.py line 75: fade_in_factor = self.images_faded_in / self.images_per_fading_phase. -/
def fade_in_factor (images_faded_in images_per_fading_phase : ℚ) : ℚ :=
  images_faded_in / images_per_fading_phase

/-- CPGGAN.py lines 71-77: the effective level passed to the generator and the
discriminator for the current batch. During stabilization it is the resolution
level itself; during fading it is resolution_level - 1 plus the fade-in factor,
with 1e-10 substituted when the factor is exactly 0. -/
def cur_level (stabilization_phase : Bool)
    (resolution_level images_faded_in images_per_fading_phase : ℚ) : ℚ :=
  if stabilization_phase then resolution_level
  else
    resolution_level - 1 +
      (if fade_in_factor images_faded_in images_per_fading_phase ≠ 0 then
        fade_in_factor images_faded_in images_per_fading_phase
      else epsTiny)

/-- CPGGAN.py lines 110-111: eps_loss = 0.001 * mean(D_real ** 2). -/
def eps_loss (dRealRaw : List ℚ) : ℚ :=
  (1 / 1000) * tmean (dRealRaw.map (fun x => x ^ 2))

/-- CPGGAN.py line 114: the value rebound to the python variable D_real,
namely -mean(D(real)) + eps_loss; this value is what line 116 backpropagates. -/
def d_real_term (dRealRaw : List ℚ) : ℚ := -(tmean dRealRaw) + eps_loss dRealRaw

/-- CPGGAN.py line 129: the value rebound to D_fake in the discriminator update,
namely mean(D(fake)); this value is what line 131 backpropagates. -/
def d_fake_term (dFakeRaw : List ℚ) : ℚ := tmean dFakeRaw

/-- CPGGAN.py line 140: D_loss = float(D_fake - D_real + gp), computed from the
rebound variables D_fake and D_real. -/
def d_loss_logged (dRealRaw dFakeRaw : List ℚ) (gp : ℚ) : ℚ :=
  d_fake_term dFakeRaw - d_real_term dRealRaw + gp

/-- CPGGAN.py line 141: Wasserstein_D = float(D_real - D_fake), computed from the
rebound variables. -/
def wasserstein_logged (dRealRaw dFakeRaw : List ℚ) : ℚ :=
  d_real_term dRealRaw - d_fake_term dFakeRaw

/-- CPGGAN.py lines 157 and 161: the per-batch generator loss -mean(D(fake)). -/
def g_loss_of_batch (dFakeForG : List ℚ) : ℚ := -(tmean dFakeForG)

/-- CPGGAN.py lines 80-84: the noise used for the batch is the static noise when
validating and a freshly sampled noise vector otherwise. -/
def batchNoise {N : Type} (validate : Bool) (staticNoise freshNoise : N) : N :=
  if validate then staticNoise else freshNoise

/-- CPGGAN.py lines 80-84: the conditioning features used for the batch are the
static Gaussian-sampled features when validating, and otherwise the features
yielded by the data loader are kept unchanged. -/
def batchFeatures {F : Type} (validate : Bool) (staticFeatures loaderFeatures : F) : F :=
  if validate then staticFeatures else loaderFeatures

/-- Abstract view of the networks of CPGGAN: the generator maps the concatenated
(noise, features) input vector and a level to an image; the discriminator takes
its train-mode flag, the (image, feature-channels) input and the level, returning
the batch of scalar scores; the gradient penalty takes the real and fake
discriminator inputs and the level. -/
structure Nets (N F I : Type) where
  G : N × F → ℚ → I
  D : Bool → I × F → ℚ → List ℚ
  gradPenalty : I × F → I × F → ℚ → ℚ

/-- The framework calls issued by one pass of the CPGGAN training loop body. -/
inductive TrainEvent
  | dTrainMode (mode : Bool)
  | dZeroGrad
  | dBackward (v : ℚ)
  | dStep
  | gZeroGrad
  | gBackward (v : ℚ)
  | gStep
deriving DecidableEq

/-- Discriminates the generator optimizer-step event. -/
def isGStep : TrainEvent → Bool
  | TrainEvent.gStep => true
  | _ => false

/-- Discriminates the discriminator optimizer-step event. -/
def isDStep : TrainEvent → Bool
  | TrainEvent.dStep => true
  | _ => false

/-- Outcome of one non-validation batch of CPGGAN.train (lines 101-172). -/
structure BatchResult (I : Type) where
  events : List TrainEvent
  gLoss : ℚ
  dLoss : ℚ
  wassD : ℚ
  epsL : ℚ
  gFake : I
  fadedDelta : ℚ

/-- CPGGAN.py lines 101-172 for validate=False: one training batch. The returned
event list records, in order, the mode switches, zero_grad, backward and
optimizer-step calls issued to the framework; fadedDelta is the amount added to
images_faded_in at lines 170-172. -/
def runTrainBatch {N F I : Type} (nets : Nets N F I) (lvl : ℚ) (images : I)
    (features : F) (noise : N) (batch_size : ℚ) (stabilization_phase : Bool) :
    BatchResult I :=
  let dRealRaw := nets.D true (images, features) lvl
  let epsv := eps_loss dRealRaw
  let dReal := d_real_term dRealRaw
  let gFake := nets.G (noise, features) lvl
  let dFakeRaw := nets.D true (gFake, features) lvl
  let dFake := d_fake_term dFakeRaw
  let gp := nets.gradPenalty (images, features) (gFake, features) lvl
  let dLoss := d_loss_logged dRealRaw dFakeRaw gp
  let wassD := wasserstein_logged dRealRaw dFakeRaw
  let dFakeG := nets.D false (gFake, features) lvl
  let gLoss := g_loss_of_batch dFakeG
  { events := [TrainEvent.dTrainMode true, TrainEvent.dZeroGrad,
      TrainEvent.dBackward dReal, TrainEvent.dBackward dFake, TrainEvent.dBackward gp,
      TrainEvent.dStep, TrainEvent.dTrainMode false, TrainEvent.gZeroGrad,
      TrainEvent.gBackward gLoss, TrainEvent.gStep],
    gLoss := gLoss, dLoss := dLoss, wassD := wassD, epsL := epsv, gFake := gFake,
    fadedDelta := if stabilization_phase then 0 else batch_size }

/-- Running state of the loss accumulation of CPGGAN.train (lines 56-58 and
163-172): the four summed losses, the iteration counter, images_faded_in, the
level and generated image of the most recent batch, plus the event trace. -/
structure EpochState (I : Type) where
  gSum : ℚ
  dSum : ℚ
  wSum : ℚ
  epsSum : ℚ
  iterations : ℕ
  faded : ℚ
  lastLevel : ℚ
  lastFake : Option I
  events : List TrainEvent

/-- One iteration of the CPGGAN.train loop for validate=False: compute the
current level from the fading state, run the batch and accumulate. -/
def trainEpochStep {N F I : Type} (nets : Nets N F I) (stabilization_phase : Bool)
    (resolution_level images_per_fading_phase batch_size : ℚ)
    (s : EpochState I) (b : I × F × N) : EpochState I :=
  let lvl := cur_level stabilization_phase resolution_level s.faded images_per_fading_phase
  let r := runTrainBatch nets lvl b.1 b.2.1 b.2.2 batch_size stabilization_phase
  { gSum := s.gSum + r.gLoss, dSum := s.dSum + r.dLoss, wSum := s.wSum + r.wassD,
    epsSum := s.epsSum + r.epsL, iterations := s.iterations + 1,
    faded := s.faded + r.fadedDelta, lastLevel := lvl, lastFake := some r.gFake,
    events := s.events ++ r.events }

/-- CPGGAN.py lines 56-172 for validate=False: the whole training pass over the
epoch's batches, starting from zeroed sums and the given images_faded_in. -/
def runTrainEpoch {N F I : Type} (nets : Nets N F I) (stabilization_phase : Bool)
    (resolution_level images_per_fading_phase batch_size faded0 : ℚ)
    (batches : List (I × F × N)) : EpochState I :=
  batches.foldl
    (trainEpochStep nets stabilization_phase resolution_level images_per_fading_phase batch_size)
    { gSum := 0, dSum := 0, wSum := 0, epsSum := 0, iterations := 0, faded := faded0,
      lastLevel := 0, lastFake := none, events := [] }

/-- The log_info dictionary built at CPGGAN.py lines 174-181. -/
structure LogVals where
  lossG : ℚ
  lossD : ℚ
  wassD : ℚ
  epsSum : ℚ
  currLevel : ℚ
deriving DecidableEq

/-- CPGGAN.py lines 174-181: the logged epoch values, dividing the summed G and D
losses by the iteration count. -/
def epochLogVals {I : Type} (s : EpochState I) : LogVals :=
  { lossG := s.gSum / (s.iterations : ℚ), lossD := s.dSum / (s.iterations : ℚ),
    wassD := s.wSum, epsSum := s.epsSum, currLevel := s.lastLevel }

/-- The list of per-batch generator losses produced along the epoch, threading
the images_faded_in counter exactly as the loop does. -/
def gLossSeq {N F I : Type} (nets : Nets N F I) (stabilization_phase : Bool)
    (resolution_level images_per_fading_phase batch_size : ℚ) :
    ℚ → List (I × F × N) → List ℚ
  | _, [] => []
  | f, b :: bs =>
      (runTrainBatch nets
        (cur_level stabilization_phase resolution_level f images_per_fading_phase)
        b.1 b.2.1 b.2.2 batch_size stabilization_phase).gLoss ::
        gLossSeq nets stabilization_phase resolution_level images_per_fading_phase
          batch_size (f + if stabilization_phase then 0 else batch_size) bs

/-- The static inputs prepared in CPGGAN.__init__ lines 42-48: the static noise
and the concatenation of the static landmark and low-resolution samples drawn
from the fitted multivariate Gaussian distributions. -/
structure Statics (N F : Type) where
  static_noise : N
  static_features : F

/-- The value returned by CPGGAN.train for validate=True (lines 183-187). -/
structure ValidateResult (I : Type) where
  logDict : Option LogVals
  logImg : I
  events : List TrainEvent
  consumed : ℕ
deriving DecidableEq

/-- CPGGAN.py lines 60-122 and 183-187 for validate=True: the loop overrides the
loader features with the static Gaussian samples and the noise with the static
noise, evaluates the discriminator on the real input (no backward), generates the
image and breaks after the first batch; the log dictionary is empty. On an empty
loader the python code would raise a NameError on G_fake, embedded as none. -/
def runValidate {N F I : Type} (nets : Nets N F I) (dMode : Bool)
    (statics : Statics N F) (stabilization_phase : Bool)
    (resolution_level images_faded_in images_per_fading_phase : ℚ)
    (batches : List (I × F × N)) : Option (ValidateResult I) :=
  match batches with
  | [] => none
  | b :: _ =>
    let lvl := cur_level stabilization_phase resolution_level images_faded_in
      images_per_fading_phase
    let noise := batchNoise true statics.static_noise b.2.2
    let features := batchFeatures true statics.static_features b.2.1
    let dRealRaw := nets.D dMode (b.1, features) lvl
    let _dReal := d_real_term dRealRaw
    let gFake := nets.G (noise, features) lvl
    some { logDict := none, logImg := gFake, events := [], consumed := 1 }

/-- Modelled from the spec: PGGAN.schedule_resolution and the per-phase fading
bookkeeping live in Models/PGGAN/PGGAN.py, which is not under src/. Per the
spec's description of fading as a smooth blending between two consecutive
resolution levels, during a fading phase the number of images already faded in
stays between 0 and images_per_fading_phase, the latter being positive. -/
def fadingScheduleInvariant (images_faded_in images_per_fading_phase : ℚ) : Prop :=
  0 ≤ images_faded_in ∧ images_faded_in ≤ images_per_fading_phase ∧
    0 < images_per_fading_phase

end CPGGAN

namespace Anonymizer

/-- Abstract view of the collaborators of Anonymizer.__call__ (Anonymizer.py,
lines 26-47): the face extractor returns an optional face with the extraction
information; the model exposes img2latent_bridge and anonymize; squeeze(0),
cpu().detach(), ToPILImage, the bicubic resize to the face size and the
reconstructor stay opaque. -/
structure Pipeline (Img Face Info Latent Tensor : Type) where
  extractor : Img → Option Face × Info
  img2latent_bridge : Face → Info → Latent
  modelAnonymize : Latent → Tensor
  squeeze0 : Tensor → Tensor
  cpuDetach : Tensor → Tensor
  toPILImage : Tensor → Img
  faceSize : Face → ℕ × ℕ
  resizeBicubic : Img → ℕ × ℕ → Img
  reconstructor : Img → Info → Img

/-- Anonymizer.py lines 26-47: Anonymizer.__call__. constructed_image starts as
None; when the extractor finds a face, the model output is squeezed, detached,
converted to a PIL image, resized to the extracted face's size and handed to the
reconstructor together with the extraction information; otherwise None is
returned unchanged. -/
def call {Img Face Info Latent Tensor : Type}
    (p : Pipeline Img Face Info Latent Tensor) (image : Img) : Option Img :=
  match p.extractor image with
  | (some face, info) =>
    let latent := p.img2latent_bridge face info
    let face_out := p.squeeze0 (p.modelAnonymize latent)
    let face_pil := p.toPILImage (p.cpuDetach face_out)
    let face_resized := p.resizeBicubic face_pil (p.faceSize face)
    some (p.reconstructor face_resized info)
  | (none, _) => none

end Anonymizer

namespace DeepFakeOriginal

/-- L1Loss with size_average=True (DeepFakeOriginal.py line 36): the mean of the
componentwise absolute differences. -/
def l1Loss (out target : List ℚ) : ℚ :=
  tmean ((out.zip target).map (fun p => |p.1 - p.2|))

/-- The networks built in DeepFakeOriginal.__init__ (lines 29-31): one encoder
instance and two decoder instances, each an opaque function on face tensors. -/
structure Model (α : Type) where
  encoder : α → α
  decoder1 : α → α
  decoder2 : α → α

/-- Modelled from the spec: Models/DeepFake/Autoencoder.py is not under src/.
Per the spec's DeepFake-style autoencoder face-swap design, AutoEncoder(encoder,
decoder) feeds the input through the encoder and then through the decoder. -/
def autoEncoderApply {α : Type} (enc dec : α → α) (x : α) : α := dec (enc x)

/-- DeepFakeOriginal.py line 33: autoencoder1 = AutoEncoder(encoder, decoder1),
sharing the single encoder instance. -/
def autoencoder1 {α : Type} (m : Model α) : α → α :=
  fun x => autoEncoderApply m.encoder m.decoder1 x

/-- DeepFakeOriginal.py line 34: autoencoder2 = AutoEncoder(encoder, decoder2),
sharing the same encoder instance. -/
def autoencoder2 {α : Type} (m : Model α) : α → α :=
  fun x => autoEncoderApply m.encoder m.decoder2 x

/-- DeepFakeOriginal.py lines 115-116: anonymize(x) = autoencoder2(x). -/
def anonymize {α : Type} (m : Model α) (x : α) : α := autoencoder2 m x

/-- DeepFakeOriginal.py lines 118-119: anonymize_2(x) = autoencoder1(x). -/
def anonymize_2 {α : Type} (m : Model α) (x : α) : α := autoencoder1 m x

/-- The framework calls issued by one batch of DeepFakeOriginal.train. -/
inductive DFEvent
  | opt1ZeroGrad
  | loss1Backward (v : ℚ)
  | opt1Step
  | opt2ZeroGrad
  | loss2Backward (v : ℚ)
  | opt2Step
deriving DecidableEq

/-- Discriminates the optimizer-1 step event. -/
def isOpt1Step : DFEvent → Bool
  | DFEvent.opt1Step => true
  | _ => false

/-- Discriminates the optimizer-2 step event. -/
def isOpt2Step : DFEvent → Bool
  | DFEvent.opt2Step => true
  | _ => false

/-- One element yielded by the combined data loader: warped and target faces for
both identities (DeepFakeOriginal.py line 55). -/
structure Batch where
  face1_warped : List ℚ
  face1 : List ℚ
  face2_warped : List ℚ
  face2 : List ℚ

/-- Outcome of one batch of DeepFakeOriginal.train. -/
structure BatchOut where
  events : List DFEvent
  loss1 : ℚ
  loss2 : ℚ
  output1 : List ℚ
  output2 : List ℚ

/-- DeepFakeOriginal.py lines 60-70: per batch, zero the first optimizer, run
autoencoder1 on the warped face 1, take the L1 loss against the unwarped face 1,
backpropagate and step; then the same for autoencoder2 on face 2. -/
def trainBatch (m : Model (List ℚ)) (b : Batch) : BatchOut :=
  let output1 := autoencoder1 m b.face1_warped
  let loss1 := l1Loss output1 b.face1
  let output2 := autoencoder2 m b.face2_warped
  let loss2 := l1Loss output2 b.face2
  { events := [DFEvent.opt1ZeroGrad, DFEvent.loss1Backward loss1, DFEvent.opt1Step,
      DFEvent.opt2ZeroGrad, DFEvent.loss2Backward loss2, DFEvent.opt2Step],
    loss1 := loss1, loss2 := loss2, output1 := output1, output2 := output2 }

end DeepFakeOriginal

namespace Trainer

/-- The configuration fields read by Trainer.train (config_model.py lines
185-188): max_epochs, validation_periods and validation_frequencies; the mutable
validate_index starts at 0. -/
structure TConfig where
  max_epochs : ℕ
  validation_periods : List ℕ
  validation_frequencies : List ℕ
deriving DecidableEq

/-- Trainer.py lines 31-35 for one epoch: read validation_periods[idx + 1]
(IndexError, embedded as none, when out of range), advance validate_index when
the epoch has reached that threshold, then test current_epoch %
validation_frequencies[new index] == 0 (again none on IndexError, and none for
the ZeroDivisionError of a zero frequency). -/
def step (cfg : TConfig) (idx e : ℕ) : Option (ℕ × Bool) :=
  match cfg.validation_periods.get? (idx + 1) with
  | none => none
  | some threshold =>
    let idx2 := if threshold ≤ e then idx + 1 else idx
    match cfg.validation_frequencies.get? idx2 with
    | none => none
    | some freq => if freq = 0 then none else some (idx2, e % freq == 0)

/-- Trainer.py lines 25-45: the epochs loop, threading validate_index and
recording for each epoch whether the validation branch was taken. -/
def runFrom (cfg : TConfig) : ℕ → ℕ → ℕ → Option (List (ℕ × Bool))
  | _, _, 0 => some []
  | idx, e, n + 1 =>
    match step cfg idx e with
    | none => none
    | some (idx2, v) =>
      match runFrom cfg idx2 (e + 1) n with
      | none => none
      | some rest => some ((e, v) :: rest)

/-- Trainer.train: epochs 0 through max_epochs - 1 starting at validate_index 0. -/
def run (cfg : TConfig) : Option (List (ℕ × Bool)) := runFrom cfg 0 0 cfg.max_epochs

/-- The number of thresholds validation_periods[1], validation_periods[2], ...
that have been reached by epoch e, as the claim describes the index. -/
def countReached (cfg : TConfig) (e : ℕ) : ℕ :=
  ((cfg.validation_periods.drop 1).filter (fun p => decide (p ≤ e))).length

/-- The claim's description of one epoch: epoch e validates iff e is divisible
by validation_frequencies[countReached e]. -/
def specEpoch (cfg : TConfig) (e : ℕ) : ℕ × Bool :=
  (e, e % (cfg.validation_frequencies.getD (countReached cfg e) 1) == 0)

/-- The claim's description of the whole run. -/
def specRun (cfg : TConfig) : List (ℕ × Bool) :=
  (List.range cfg.max_epochs).map (specEpoch cfg)

/-- The calls Trainer.train issues around the model during one epoch. -/
inductive TAction
  | setMode (mode : Bool)
  | trainCall (epoch : ℕ) (validate : Bool)
  | logWithImages (epoch : ℕ)
  | logPlain (epoch : ℕ)
  | logValidation (epoch : ℕ)
deriving DecidableEq

/-- Trainer.py lines 26-45: the sequence of model calls of epoch e, given
whether the validation branch is taken: training always happens first; the
validation branch logs with images, disables train mode, runs the validation
pass and re-enables train mode. -/
def epochTrace (e : ℕ) (v : Bool) : List TAction :=
  [TAction.setMode true, TAction.trainCall e false] ++
    (if v then
      [TAction.logWithImages e, TAction.setMode false, TAction.trainCall e true,
        TAction.logValidation e, TAction.setMode true]
    else [TAction.logPlain e])

/-- Internal count of thresholds strictly below e in a list. -/
def countLt (l : List ℕ) (e : ℕ) : ℕ := (l.filter (fun p => decide (p < e))).length

end Trainer

namespace ImageDatesetCombined

/-- ImageDataset.py lines 120-121: __len__ returns
min(len(dataset_a), len(dataset_b)) * size_multiplicator. The underlying
ImageFolder datasets are embedded as lists of (item, class) pairs. -/
def lenCombined {A B : Type} (a : List (A × ℕ)) (b : List (B × ℕ)) (m : ℕ) : ℕ :=
  min a.length b.length * m

/-- ImageDataset.py lines 123-125: __getitem__ reduces i modulo the size
multiplicator and returns (dataset_a[i][0], dataset_b[i][0]); an out-of-range
index raises IndexError, embedded as none (dataset_a is indexed first). -/
def getitem {A B : Type} (a : List (A × ℕ)) (b : List (B × ℕ)) (m i : ℕ) :
    Option (A × B) :=
  match a.get? (i % m) with
  | none => none
  | some x =>
    match b.get? (i % m) with
    | none => none
    | some y => some (x.1, y.1)

end ImageDatesetCombined

/-- Concrete networks for exercising the discriminator loss bookkeeping: the
discriminator scores the real image (0) as [1] and any other image as [0], the
generator outputs image 1, and the gradient penalty is 0. -/
def netsC2 : CPGGAN.Nets ℕ ℕ ℕ where
  G := fun _ _ => 1
  D := fun _ x _ => if x.1 = 0 then [1] else [0]
  gradPenalty := fun _ _ _ => 0

/-- Concrete pipeline whose extractor always finds a face. -/
def pipeWithFace : Anonymizer.Pipeline ℕ ℕ ℕ ℕ ℕ where
  extractor := fun img => (some (img + 1), img + 2)
  img2latent_bridge := fun a c => a + c
  modelAnonymize := fun l => l * 2
  squeeze0 := fun t => t
  cpuDetach := fun t => t
  toPILImage := fun t => t
  faceSize := fun a => (a, a)
  resizeBicubic := fun im s => im + s.1
  reconstructor := fun im c => im * 10 + c

/-- Concrete pipeline whose extractor never finds a face. -/
def pipeNoFace : Anonymizer.Pipeline ℕ ℕ ℕ ℕ ℕ where
  extractor := fun _ => (none, 0)
  img2latent_bridge := fun a c => a + c
  modelAnonymize := fun l => l
  squeeze0 := fun t => t
  cpuDetach := fun t => t
  toPILImage := fun t => t
  faceSize := fun a => (a, a)
  resizeBicubic := fun im _ => im
  reconstructor := fun im _ => im

/-- Concrete networks for the C5 witness: the discriminator always scores [2],
the generator always outputs image 0. -/
def netsC5 : CPGGAN.Nets ℕ ℕ ℕ where
  G := fun _ _ => 0
  D := fun _ _ _ => [2]
  gradPenalty := fun _ _ _ => 0

/-- The default Config of config_model.py lines 185-188: max_epochs 101,
validation_frequencies [2, 5, 20], validation_periods [0, 10, 20, 102]. -/
def trainerCfg : Trainer.TConfig where
  max_epochs := 101
  validation_periods := [0, 10, 20, 102]
  validation_frequencies := [2, 5, 20]

/-! Theorems settling the claims. -/

/-- Claim C1: for every fading-phase batch of CPGGAN.train the effective level
passed to the networks equals resolution_level - 1 + images_faded_in /
images_per_fading_phase, with floor resolution_level - 1 + 1e-10 when the
quotient is 0; it lies strictly above resolution_level - 1, never exceeds
resolution_level, and is non-decreasing from batch to batch because
images_faded_in grows by batch_size after each training batch; during every
stabilization-phase batch the effective level equals resolution_level exactly. -/
theorem c1_effective_level (R f P b : ℚ)
    (hInv : CPGGAN.fadingScheduleInvariant f P) (hb : 0 ≤ b)
    (hstep : b = 0 ∨ CPGGAN.epsTiny ≤ b / P) :
    CPGGAN.cur_level false R f P
        = R - 1 + (if CPGGAN.fade_in_factor f P ≠ 0 then CPGGAN.fade_in_factor f P
            else CPGGAN.epsTiny)
      ∧ R - 1 < CPGGAN.cur_level false R f P
      ∧ CPGGAN.cur_level false R f P ≤ R
      ∧ CPGGAN.cur_level false R f P ≤ CPGGAN.cur_level false R (f + b) P
      ∧ CPGGAN.cur_level true R f P = R
      ∧ ∀ (N F I : Type) (nets : CPGGAN.Nets N F I) (s : CPGGAN.EpochState I)
          (batch : I × F × N),
          (CPGGAN.trainEpochStep nets false R P b s batch).faded = s.faded + b := by
  obtain ⟨hf0, hfP, hP⟩ := hInv
  have hPne : P ≠ 0 := ne_of_gt hP
  have hdivle : CPGGAN.fade_in_factor f P ≤ 1 := (div_le_one hP).mpr hfP
  have hdivnn : (0 : ℚ) ≤ CPGGAN.fade_in_factor f P := div_nonneg hf0 hP.le
  have heps : (0 : ℚ) < CPGGAN.epsTiny := by norm_num [CPGGAN.epsTiny]
  have heps1 : CPGGAN.epsTiny ≤ 1 := by norm_num [CPGGAN.epsTiny]
  have hEq : CPGGAN.cur_level false R f P
      = R - 1 + (if CPGGAN.fade_in_factor f P ≠ 0 then CPGGAN.fade_in_factor f P
          else CPGGAN.epsTiny) := rfl
  have hEq2 : CPGGAN.cur_level false R (f + b) P
      = R - 1 + (if CPGGAN.fade_in_factor (f + b) P ≠ 0 then
          CPGGAN.fade_in_factor (f + b) P else CPGGAN.epsTiny) := rfl
  refine ⟨rfl, ?_, ?_, ?_, rfl, fun N F I nets s batch => rfl⟩
  · rw [hEq]
    by_cases hx : CPGGAN.fade_in_factor f P ≠ 0
    · rw [if_pos hx]
      have hpos : (0 : ℚ) < CPGGAN.fade_in_factor f P :=
        lt_of_le_of_ne hdivnn (Ne.symm hx)
      linarith
    · rw [if_neg hx]
      linarith
  · rw [hEq]
    by_cases hx : CPGGAN.fade_in_factor f P ≠ 0
    · rw [if_pos hx]; linarith
    · rw [if_neg hx]; linarith
  · by_cases hx : CPGGAN.fade_in_factor f P = 0
    · have hf00 : f = 0 := by
        have hdiv : f / P = 0 := hx
        rcases div_eq_zero_iff.mp hdiv with h | h
        · exact h
        · exact absurd h hPne
      rcases hstep with hb0 | hbe
      · rw [hb0, add_zero]
      · have hbP : (0 : ℚ) < b / P := lt_of_lt_of_le heps hbe
        have hx2 : CPGGAN.fade_in_factor (f + b) P ≠ 0 := by
          unfold CPGGAN.fade_in_factor
          rw [hf00, zero_add]
          exact ne_of_gt hbP
        rw [hEq, hEq2, if_neg (not_not_intro hx), if_pos hx2]
        have hfb : CPGGAN.fade_in_factor (f + b) P = b / P := by
          unfold CPGGAN.fade_in_factor
          rw [hf00, zero_add]
        rw [hfb]
        linarith
    · have hfpos : (0 : ℚ) < CPGGAN.fade_in_factor f P :=
        lt_of_le_of_ne hdivnn (Ne.symm hx)
      have hmono : CPGGAN.fade_in_factor f P ≤ CPGGAN.fade_in_factor (f + b) P := by
        unfold CPGGAN.fade_in_factor
        exact (div_le_div_iff_of_pos_right hP).mpr (by linarith)
      have hx2 : CPGGAN.fade_in_factor (f + b) P ≠ 0 :=
        ne_of_gt (lt_of_lt_of_le hfpos hmono)
      rw [hEq, hEq2, if_pos hx, if_pos hx2]
      linarith

/-- Witness for C1 at resolution level 3, one image faded in out of two, batch
size one. -/
theorem c1_effective_level_witness :
    CPGGAN.fadingScheduleInvariant 1 2 ∧ (0 : ℚ) ≤ 1 ∧
      ((1 : ℚ) = 0 ∨ CPGGAN.epsTiny ≤ 1 / 2) ∧
      2 < CPGGAN.cur_level false 3 1 2 ∧ CPGGAN.cur_level false 3 1 2 ≤ 3 := by
  have h := c1_effective_level 3 1 2 1
    (by norm_num [CPGGAN.fadingScheduleInvariant]) (by norm_num)
    (Or.inr (by norm_num [CPGGAN.epsTiny]))
  refine ⟨by norm_num [CPGGAN.fadingScheduleInvariant], by norm_num,
    Or.inr (by norm_num [CPGGAN.epsTiny]), ?_, h.2.2.1⟩
  have h2 := h.2.1
  linarith

/-- Claim C2 is a code bug: at the failing input where D scores the real batch
[1] and the fake batch [0] with gradient penalty 0, the variable D_real has been
rebound to -mean+eps at line 114, so line 140 logs D_loss = mean(fake) +
mean(real) - eps + gp = 999/1000 instead of the claimed mean(fake) − mean(real)
+ gp = −1 (even allowing the eps drift), and line 141 logs Wasserstein_D =
−999/1000 instead of the claimed mean(real) − mean(fake) = 1. The values the
code actually backpropagates (d_real_term + d_fake_term + gp = −999/1000) do
realize the intended Wasserstein objective up to eps, so only the logging
diverges. -/
theorem c2_dloss_reporting :
    (CPGGAN.runTrainBatch netsC2 1 0 0 0 1 false).dLoss = 999 / 1000
  ∧ (CPGGAN.runTrainBatch netsC2 1 0 0 0 1 false).wassD = -(999 / 1000)
  ∧ CPGGAN.d_real_term [1] + CPGGAN.d_fake_term [0] + 0 = -(999 / 1000)
  ∧ tmean [(0 : ℚ)] - tmean [1] + 0 = -1
  ∧ tmean [(1 : ℚ)] - tmean [0] = 1
  ∧ CPGGAN.eps_loss [1] = 1 / 1000
  ∧ ¬ ((CPGGAN.runTrainBatch netsC2 1 0 0 0 1 false).dLoss = tmean [0] - tmean [1] + 0
        ∨ (CPGGAN.runTrainBatch netsC2 1 0 0 0 1 false).dLoss
            = tmean [0] - tmean [1] + 0 + CPGGAN.eps_loss [1]
        ∨ (CPGGAN.runTrainBatch netsC2 1 0 0 0 1 false).dLoss
            = tmean [0] - tmean [1] + 0 - CPGGAN.eps_loss [1])
  ∧ (CPGGAN.runTrainBatch netsC2 1 0 0 0 1 false).wassD ≠ tmean [1] - tmean [0] := by
  have hD : (CPGGAN.runTrainBatch netsC2 1 0 0 0 1 false).dLoss
      = CPGGAN.d_loss_logged [1] [0] 0 := rfl
  have hW : (CPGGAN.runTrainBatch netsC2 1 0 0 0 1 false).wassD
      = CPGGAN.wasserstein_logged [1] [0] := rfl
  rw [hD, hW]
  norm_num [CPGGAN.d_loss_logged, CPGGAN.wasserstein_logged, CPGGAN.d_real_term,
    CPGGAN.d_fake_term, CPGGAN.eps_loss, tmean]

/-- Claim C3 counterexample: in a validate=False batch the conditioning features
handed to the networks are the data loader's features, not the Gaussian-sampled
ones — with the Gaussian-derived static feature value 1 and the loader feature
value 0, the batch uses 0, which differs from 1. -/
theorem c3_features_counterexample :
    CPGGAN.batchFeatures false (1 : ℚ) 0 = 0 ∧ ((0 : ℚ) ≠ 1) :=
  ⟨rfl, by norm_num⟩

/-- Claim C3 amended: during validate=False batches the conditioning features
concatenated with the noise for the generator (and filled as channels for the
discriminator) come from the data loader and the noise is freshly sampled; the
Gaussian-fitted distributions are sampled only for the static features used when
validate=True. -/
theorem c3_feature_sources {N F I : Type} (nets : CPGGAN.Nets N F I)
    (dMode : Bool) (statics : CPGGAN.Statics N F) (stab : Bool) (R f P lvl : ℚ)
    (img : I) (feat : F) (n : N) (bs : ℚ) (sF lF : F) (sN fN : N)
    (b : I × F × N) (rest : List (I × F × N)) :
    CPGGAN.batchFeatures false sF lF = lF
    ∧ CPGGAN.batchNoise false sN fN = fN
    ∧ (CPGGAN.runTrainBatch nets lvl img feat n bs stab).gFake = nets.G (n, feat) lvl
    ∧ Option.map (fun r => r.logImg)
        (CPGGAN.runValidate nets dMode statics stab R f P (b :: rest))
        = some (nets.G (statics.static_noise, statics.static_features)
            (CPGGAN.cur_level stab R f P)) :=
  ⟨rfl, rfl, rfl, rfl⟩

/-- Claim C4: whenever the extractor detects a face, Anonymizer.__call__ returns
the reconstructed scene: the model output on the bridged latent input is
squeezed, detached, converted to a PIL image, resized to the extracted face's
size and composited back by the reconstructor with the extraction information. -/
theorem c4_face_composited {Img Face Info Latent Tensor : Type}
    (p : Anonymizer.Pipeline Img Face Info Latent Tensor) (image : Img)
    (face : Face) (info : Info) (h : p.extractor image = (some face, info)) :
    Anonymizer.call p image
      = some (p.reconstructor
          (p.resizeBicubic
            (p.toPILImage (p.cpuDetach (p.squeeze0 (p.modelAnonymize
              (p.img2latent_bridge face info)))))
            (p.faceSize face))
          info) := by
  unfold Anonymizer.call
  rw [h]

/-- Witness for C4 on the concrete pipeline. -/
theorem c4_face_composited_witness : Anonymizer.call pipeWithFace 0 = some 72 :=
  c4_face_composited pipeWithFace 0 1 2 rfl

/-- Claim C6: DeepFakeOriginal builds two autoencoders over one shared encoder
with separate decoders; each training batch issues exactly one optimizer step
per autoencoder after backpropagating the L1 loss between the autoencoder output
on the warped face and the unwarped target face; anonymize applies the second
autoencoder (shared encoder then decoder2) and anonymize_2 the first. -/
theorem c6_deepfake_structure (m : DeepFakeOriginal.Model (List ℚ))
    (b : DeepFakeOriginal.Batch) (x : List ℚ) :
    DeepFakeOriginal.autoencoder1 m = (fun y => m.decoder1 (m.encoder y))
    ∧ DeepFakeOriginal.autoencoder2 m = (fun y => m.decoder2 (m.encoder y))
    ∧ (DeepFakeOriginal.trainBatch m b).events
        = [DeepFakeOriginal.DFEvent.opt1ZeroGrad,
           DeepFakeOriginal.DFEvent.loss1Backward
             (DeepFakeOriginal.l1Loss
               (DeepFakeOriginal.autoencoder1 m b.face1_warped) b.face1),
           DeepFakeOriginal.DFEvent.opt1Step,
           DeepFakeOriginal.DFEvent.opt2ZeroGrad,
           DeepFakeOriginal.DFEvent.loss2Backward
             (DeepFakeOriginal.l1Loss
               (DeepFakeOriginal.autoencoder2 m b.face2_warped) b.face2),
           DeepFakeOriginal.DFEvent.opt2Step]
    ∧ (DeepFakeOriginal.trainBatch m b).events.countP DeepFakeOriginal.isOpt1Step = 1
    ∧ (DeepFakeOriginal.trainBatch m b).events.countP DeepFakeOriginal.isOpt2Step = 1
    ∧ DeepFakeOriginal.anonymize m x = m.decoder2 (m.encoder x)
    ∧ DeepFakeOriginal.anonymize_2 m x = m.decoder1 (m.encoder x) :=
  ⟨rfl, rfl, rfl, rfl, rfl, rfl, rfl⟩

/-- Claim C8: when the extractor detects no face, Anonymizer.__call__ returns
None — not the original image — and performs no model inference: the result is
none for every substitution of the model's inference functions. -/
theorem c8_no_face_detected {Img Face Info Latent Tensor : Type}
    (p : Anonymizer.Pipeline Img Face Info Latent Tensor) (image : Img)
    (h : (p.extractor image).1 = none) :
    Anonymizer.call p image = none
    ∧ Anonymizer.call p image ≠ some image
    ∧ ∀ (f : Latent → Tensor) (g : Face → Info → Latent),
        Anonymizer.call
          { p with modelAnonymize := f, img2latent_bridge := g } image = none := by
  have hmain : ∀ (q : Anonymizer.Pipeline Img Face Info Latent Tensor),
      q.extractor = p.extractor → Anonymizer.call q image = none := by
    intro q hq
    unfold Anonymizer.call
    rw [hq]
    cases hx : p.extractor image with
    | mk a c =>
      rw [hx] at h
      have ha : a = none := h
      rw [ha]
  refine ⟨hmain p rfl, ?_, fun f g => hmain _ rfl⟩
  rw [hmain p rfl]
  intro hcontra
  exact Option.noConfusion hcontra

/-- Witness for C8 on the concrete pipeline. -/
theorem c8_no_face_detected_witness : Anonymizer.call pipeNoFace 5 = none :=
  (c8_no_face_detected pipeNoFace 5 rfl).1

/-- Claim C9: a validate=True call on a non-empty loader consumes exactly one
batch, issues no mode, zero_grad, backward or optimizer-step call (so folding
any state-update function over the issued events leaves any parameter and
optimizer state unchanged), and returns the empty log dictionary together with
the image generated from the static noise and the static Gaussian-sampled
features. -/
theorem c9_validate_no_update {N F I : Type} (nets : CPGGAN.Nets N F I)
    (dMode : Bool) (statics : CPGGAN.Statics N F) (stab : Bool) (R f P : ℚ)
    (b : I × F × N) (rest : List (I × F × N)) :
    CPGGAN.runValidate nets dMode statics stab R f P (b :: rest)
      = some ⟨none,
          nets.G (statics.static_noise, statics.static_features)
            (CPGGAN.cur_level stab R f P),
          [], 1⟩
    ∧ ∀ (α : Type) (applyEv : α → CPGGAN.TrainEvent → α) (s : α),
        Option.map (fun r => r.events.foldl applyEv s)
          (CPGGAN.runValidate nets dMode statics stab R f P (b :: rest)) = some s :=
  ⟨rfl, fun _ _ _ => rfl⟩

/-- Claim C10: the combined dataset's length is min of the two dataset sizes
times the multiplicator; a lookup reduces its index modulo the multiplicator and
pairs the first components of the two underlying items, so only the first m
elements of each dataset are ever reachable, and any valid index whose residue
reaches min of the sizes raises IndexError (none). -/
theorem c10_combined_dataset {A B : Type} (a : List (A × ℕ)) (b : List (B × ℕ))
    (m : ℕ) (hm : 0 < m) :
    ImageDatesetCombined.lenCombined a b m = min a.length b.length * m
    ∧ (∀ (i : ℕ) (h1 : i % m < a.length) (h2 : i % m < b.length),
        ImageDatesetCombined.getitem a b m i
          = some ((a.get ⟨i % m, h1⟩).1, (b.get ⟨i % m, h2⟩).1))
    ∧ (∀ i : ℕ, ImageDatesetCombined.getitem a b m i
          = ImageDatesetCombined.getitem a b m (i % m) ∧ i % m < m)
    ∧ (∀ i : ℕ, i < ImageDatesetCombined.lenCombined a b m →
        min a.length b.length ≤ i % m →
        ImageDatesetCombined.getitem a b m i = none) := by
  refine ⟨rfl, ?_, ?_, ?_⟩
  · intro i h1 h2
    unfold ImageDatesetCombined.getitem
    rw [List.get?_eq_get h1, List.get?_eq_get h2]
  · intro i
    refine ⟨?_, Nat.mod_lt i hm⟩
    unfold ImageDatesetCombined.getitem
    rw [Nat.mod_mod_of_dvd i dvd_rfl]
  · intro i _ hge
    rcases min_le_iff.mp hge with h | h
    · unfold ImageDatesetCombined.getitem
      rw [List.get?_eq_none.mpr h]
    · unfold ImageDatesetCombined.getitem
      cases hx : a.get? (i % m) with
      | none => rfl
      | some x => rw [List.get?_eq_none.mpr h]

/-- Witness for C10 on concrete two- and one-element datasets with
multiplicator 2: index 1 is below the reported length 2 yet raises. -/
theorem c10_combined_dataset_witness :
    0 < 2 ∧ ImageDatesetCombined.getitem [((10 : ℕ), 0), ((20 : ℕ), 0)]
      [((30 : ℕ), 1)] 2 1 = none := by
  have h := c10_combined_dataset [((10 : ℕ), 0), ((20 : ℕ), 0)] [((30 : ℕ), 1)] 2
    (by norm_num)
  exact ⟨by norm_num, h.2.2.2 1 (by decide) (by decide)⟩

/-- Folding the training-loop step accumulates the generator losses of
gLossSeq (threaded through the fade-in counter) onto gSum and counts one
iteration per batch. -/
theorem runTrainEpoch_fold {N F I : Type} (nets : CPGGAN.Nets N F I) (stab : Bool)
    (R P bsz : ℚ) :
    ∀ (batches : List (I × F × N)) (s : CPGGAN.EpochState I),
      ((batches.foldl (CPGGAN.trainEpochStep nets stab R P bsz) s).gSum
          = s.gSum + (CPGGAN.gLossSeq nets stab R P bsz s.faded batches).sum)
      ∧ (batches.foldl (CPGGAN.trainEpochStep nets stab R P bsz) s).iterations
          = s.iterations + batches.length := by
  intro batches
  induction batches with
  | nil => intro s; simp [CPGGAN.gLossSeq]
  | cons b bs ih =>
    intro s
    rw [List.foldl_cons]
    have h := ih (CPGGAN.trainEpochStep nets stab R P bsz s b)
    have hgs : (CPGGAN.trainEpochStep nets stab R P bsz s b).gSum
        = s.gSum + (CPGGAN.runTrainBatch nets
            (CPGGAN.cur_level stab R s.faded P) b.1 b.2.1 b.2.2 bsz stab).gLoss := rfl
    have hfad : (CPGGAN.trainEpochStep nets stab R P bsz s b).faded
        = s.faded + (if stab then 0 else bsz) := rfl
    have hit : (CPGGAN.trainEpochStep nets stab R P bsz s b).iterations
        = s.iterations + 1 := rfl
    have hseq : CPGGAN.gLossSeq nets stab R P bsz s.faded (b :: bs)
        = (CPGGAN.runTrainBatch nets
            (CPGGAN.cur_level stab R s.faded P) b.1 b.2.1 b.2.2 bsz stab).gLoss ::
          CPGGAN.gLossSeq nets stab R P bsz (s.faded + if stab then 0 else bsz) bs := rfl
    constructor
    · rw [h.1, hgs, hfad, hseq, List.sum_cons]
      ring
    · rw [h.2, hit, List.length_cons]
      omega

/-- The gLossSeq list has one entry per batch. -/
theorem gLossSeq_length {N F I : Type} (nets : CPGGAN.Nets N F I) (stab : Bool)
    (R P bsz : ℚ) :
    ∀ (batches : List (I × F × N)) (f : ℚ),
      (CPGGAN.gLossSeq nets stab R P bsz f batches).length = batches.length := by
  intro batches
  induction batches with
  | nil => intro f; rfl
  | cons b bs ih =>
    intro f
    rw [CPGGAN.gLossSeq, List.length_cons, List.length_cons, ih]

/-- Claim C5: every training batch, after the discriminator optimizer step,
switches the discriminator out of training mode and updates the generator by
exactly one optimizer step, backpropagating -mean D(generated image with the
feature channels); the logged lossG is the arithmetic mean of this per-batch
value over all batches of the epoch. -/
theorem c5_generator_update {N F I : Type} (nets : CPGGAN.Nets N F I)
    (stab : Bool) (R P bsz faded0 lvl : ℚ) (img : I) (feat : F) (n : N)
    (batches : List (I × F × N)) (hne : batches ≠ []) :
    (CPGGAN.runTrainBatch nets lvl img feat n bsz stab).events
        = [CPGGAN.TrainEvent.dTrainMode true, CPGGAN.TrainEvent.dZeroGrad,
           CPGGAN.TrainEvent.dBackward (CPGGAN.d_real_term (nets.D true (img, feat) lvl)),
           CPGGAN.TrainEvent.dBackward
             (CPGGAN.d_fake_term (nets.D true (nets.G (n, feat) lvl, feat) lvl)),
           CPGGAN.TrainEvent.dBackward
             (nets.gradPenalty (img, feat) (nets.G (n, feat) lvl, feat) lvl),
           CPGGAN.TrainEvent.dStep, CPGGAN.TrainEvent.dTrainMode false,
           CPGGAN.TrainEvent.gZeroGrad,
           CPGGAN.TrainEvent.gBackward
             (CPGGAN.g_loss_of_batch (nets.D false (nets.G (n, feat) lvl, feat) lvl)),
           CPGGAN.TrainEvent.gStep]
    ∧ (CPGGAN.runTrainBatch nets lvl img feat n bsz stab).events.countP
        CPGGAN.isGStep = 1
    ∧ (CPGGAN.runTrainBatch nets lvl img feat n bsz stab).events.countP
        CPGGAN.isDStep = 1
    ∧ (CPGGAN.runTrainEpoch nets stab R P bsz faded0 batches).iterations
        = batches.length
    ∧ (CPGGAN.runTrainEpoch nets stab R P bsz faded0 batches).iterations ≠ 0
    ∧ (CPGGAN.epochLogVals (CPGGAN.runTrainEpoch nets stab R P bsz faded0 batches)).lossG
        = (CPGGAN.gLossSeq nets stab R P bsz faded0 batches).sum / (batches.length : ℚ)
    ∧ (CPGGAN.gLossSeq nets stab R P bsz faded0 batches).length = batches.length := by
  have hfold := runTrainEpoch_fold nets stab R P bsz batches
    { gSum := 0, dSum := 0, wSum := 0, epsSum := 0, iterations := 0, faded := faded0,
      lastLevel := 0, lastFake := none, events := [] }
  have hiter : (CPGGAN.runTrainEpoch nets stab R P bsz faded0 batches).iterations
      = batches.length := by
    rw [CPGGAN.runTrainEpoch, hfold.2]
    simp
  refine ⟨rfl, rfl, rfl, hiter, ?_, ?_,
    gLossSeq_length nets stab R P bsz batches faded0⟩
  · rw [hiter]
    intro hzero
    exact hne (List.length_eq_zero.mp hzero)
  · have hg : (CPGGAN.runTrainEpoch nets stab R P bsz faded0 batches).gSum
        = (CPGGAN.gLossSeq nets stab R P bsz faded0 batches).sum := by
      rw [CPGGAN.runTrainEpoch, hfold.1]
      simp
    rw [CPGGAN.epochLogVals]
    rw [hg, hiter]

/-- Witness for C5 on one concrete batch: the epoch counts one iteration and
logs lossG = -2, the mean of the single per-batch generator loss -mean([2]). -/
theorem c5_generator_update_witness :
    ([((0 : ℕ), (0 : ℕ), (0 : ℕ))] : List (ℕ × ℕ × ℕ)) ≠ []
    ∧ (CPGGAN.runTrainEpoch netsC5 false 3 2 1 0
        [((0 : ℕ), (0 : ℕ), (0 : ℕ))]).iterations = 1
    ∧ (CPGGAN.epochLogVals (CPGGAN.runTrainEpoch netsC5 false 3 2 1 0
        [((0 : ℕ), (0 : ℕ), (0 : ℕ))])).lossG = -2 := by
  have h := c5_generator_update netsC5 false 3 2 1 0 0 0 0 0
    [((0 : ℕ), (0 : ℕ), (0 : ℕ))] (by simp)
  refine ⟨by simp, h.2.2.2.1, ?_⟩
  rw [h.2.2.2.2.2.1]
  norm_num [CPGGAN.gLossSeq, CPGGAN.runTrainBatch, netsC5, CPGGAN.g_loss_of_batch,
    tmean]

/-- No threshold lies strictly below epoch 0. -/
theorem countLt_zero (l : List ℕ) : Trainer.countLt l 0 = 0 := by
  unfold Trainer.countLt
  have h : l.filter (fun p => decide (p < 0)) = [] := by
    apply List.filter_eq_nil_iff.mpr
    intro a _
    simp
  rw [h]
  rfl

/-- For a strictly sorted threshold list, the count of thresholds below e+1
advances by one exactly when the threshold sitting at position (count below e)
has been reached by epoch e. -/
theorem countLt_succ (l : List ℕ) (hs : List.Sorted (fun a b => a < b) l) (e t : ℕ)
    (ht : l.get? (Trainer.countLt l e) = some t) :
    Trainer.countLt l (e + 1)
      = if t ≤ e then Trainer.countLt l e + 1 else Trainer.countLt l e := by
  induction l with
  | nil => simp [Trainer.countLt] at ht
  | cons a tl ih =>
    have hrel : ∀ x ∈ tl, a < x := (List.sorted_cons.mp hs).1
    have hst : List.Sorted (fun x y => x < y) tl := (List.sorted_cons.mp hs).2
    by_cases ha : a < e
    · have hfe : Trainer.countLt (a :: tl) e = Trainer.countLt tl e + 1 := by
        unfold Trainer.countLt
        rw [List.filter_cons, if_pos (by simpa using ha)]
        rfl
      have hfe1 : Trainer.countLt (a :: tl) (e + 1) = Trainer.countLt tl (e + 1) + 1 := by
        unfold Trainer.countLt
        rw [List.filter_cons, if_pos (by simp only [decide_eq_true_eq]; omega)]
        rfl
      have ht2 : tl.get? (Trainer.countLt tl e) = some t := by
        rw [hfe] at ht
        simpa using ht
      rw [hfe, hfe1, ih hst ht2]
      by_cases hte : t ≤ e
      · rw [if_pos hte, if_pos hte]
      · rw [if_neg hte, if_neg hte]
    · have htl0 : tl.filter (fun p => decide (p < e)) = [] := by
        apply List.filter_eq_nil_iff.mpr
        intro x hx
        have hax := hrel x hx
        simp only [decide_eq_true_eq]
        omega
      have htl1 : tl.filter (fun p => decide (p < e + 1)) = [] := by
        apply List.filter_eq_nil_iff.mpr
        intro x hx
        have hax := hrel x hx
        simp only [decide_eq_true_eq]
        omega
      have hc0 : Trainer.countLt (a :: tl) e = 0 := by
        unfold Trainer.countLt
        rw [List.filter_cons, if_neg (by simp only [decide_eq_true_eq]; omega), htl0]
        rfl
      rw [hc0] at ht
      have hta : a = t := by
        have hget : (a :: tl).get? 0 = some a := rfl
        rw [hget] at ht
        exact Option.some.inj ht
      subst hta
      rw [hc0]
      unfold Trainer.countLt
      rw [List.filter_cons]
      by_cases hae : a ≤ e
      · rw [if_pos (by simp only [decide_eq_true_eq]; omega), htl1, if_pos hae]
        rfl
      · rw [if_neg (by simp only [decide_eq_true_eq]; omega), htl1, if_neg hae]
        rfl

/-- A threshold not yet passed keeps the below-e count strictly under the list
length. -/
theorem countLt_lt_length (l : List ℕ) (e t : ℕ) (htl : t ∈ l) (hte : e ≤ t) :
    Trainer.countLt l e < l.length := by
  unfold Trainer.countLt
  rcases lt_or_eq_of_le (List.length_filter_le (fun p => decide (p < e)) l) with h | h
  · exact h
  · exfalso
    have hcount : l.countP (fun p => decide (p < e)) = l.length := by
      rw [List.countP_eq_length_filter]
      exact h
    have hall := List.countP_eq_length.mp hcount t htl
    simp only [decide_eq_true_eq] at hall
    omega

/-- Indexing into the tail of validation_periods. -/
theorem get?_drop_one (l : List ℕ) (i : ℕ) : (l.drop 1).get? i = l.get? (1 + i) := by
  simp [List.get?_eq_getElem?, Nat.add_comm]

/-- Thresholds reached by epoch e are exactly the thresholds strictly below e+1. -/
theorem countReached_eq (cfg : Trainer.TConfig) (e : ℕ) :
    Trainer.countReached cfg e
      = Trainer.countLt (cfg.validation_periods.drop 1) (e + 1) := by
  unfold Trainer.countReached Trainer.countLt
  congr 1
  apply List.filter_congr
  intro x _
  exact decide_eq_decide.mpr Nat.lt_succ_iff.symm

/-- The stateful epoch loop of Trainer.train refines the count-based
description: starting with validate_index equal to the number of thresholds
below epoch e, the remaining n epochs produce exactly the spec entries. -/
theorem runFrom_spec (cfg : Trainer.TConfig)
    (hs : List.Sorted (fun a b => a < b) (cfg.validation_periods.drop 1))
    (t0 : ℕ) (ht0 : t0 ∈ cfg.validation_periods.drop 1)
    (hlast : cfg.max_epochs ≤ t0)
    (hflen : cfg.validation_periods.length ≤ cfg.validation_frequencies.length + 1)
    (hfpos : ∀ q ∈ cfg.validation_frequencies, 0 < q) :
    ∀ (n e : ℕ), e + n ≤ cfg.max_epochs →
      Trainer.runFrom cfg (Trainer.countLt (cfg.validation_periods.drop 1) e) e n
        = some ((List.range' e n).map (Trainer.specEpoch cfg)) := by
  intro n
  induction n with
  | zero => intro e _; rfl
  | succ n ih =>
    intro e he
    set l := cfg.validation_periods.drop 1 with hl
    have hbound : Trainer.countLt l e < l.length :=
      countLt_lt_length l e t0 ht0 (by omega)
    have hget : l.get? (Trainer.countLt l e)
        = some (l.get ⟨Trainer.countLt l e, hbound⟩) := List.get?_eq_get hbound
    set t := l.get ⟨Trainer.countLt l e, hbound⟩ with htdef
    have hper : cfg.validation_periods.get? (Trainer.countLt l e + 1) = some t := by
      have hdrop := get?_drop_one cfg.validation_periods (Trainer.countLt l e)
      rw [← hl, Nat.add_comm] at hdrop
      rw [← hdrop]
      exact hget
    have hsucc := countLt_succ l hs e t hget
    have hidx : (if t ≤ e then Trainer.countLt l e + 1 else Trainer.countLt l e)
        = Trainer.countLt l (e + 1) := hsucc.symm
    have hb2 : Trainer.countLt l (e + 1) < l.length :=
      countLt_lt_length l (e + 1) t0 ht0 (by omega)
    have hlen2 : l.length ≤ cfg.validation_frequencies.length := by
      have hld : l.length = cfg.validation_periods.length - 1 := by
        rw [hl]
        exact List.length_drop 1 _
      omega
    have hfb : Trainer.countLt l (e + 1) < cfg.validation_frequencies.length := by
      omega
    have hfget : cfg.validation_frequencies.get? (Trainer.countLt l (e + 1))
        = some (cfg.validation_frequencies.get ⟨Trainer.countLt l (e + 1), hfb⟩) :=
      List.get?_eq_get hfb
    set q := cfg.validation_frequencies.get ⟨Trainer.countLt l (e + 1), hfb⟩ with hqdef
    have hqpos : 0 < q := hfpos q (List.get_mem _ _ _)
    have hq0 : ¬ q = 0 := by omega
    have hstep : Trainer.step cfg (Trainer.countLt l e) e
        = some (Trainer.countLt l (e + 1), e % q == 0) := by
      simp only [Trainer.step, hper, hidx, hfget]
      rw [if_neg hq0]
    have hspec : Trainer.specEpoch cfg e = (e, e % q == 0) := by
      unfold Trainer.specEpoch
      rw [countReached_eq cfg e, ← hl]
      have hgd : cfg.validation_frequencies.getD (Trainer.countLt l (e + 1)) 1
          = (cfg.validation_frequencies.get? (Trainer.countLt l (e + 1))).getD 1 := by
        simp [List.getD_eq_getElem?_getD, List.get?_eq_getElem?]
      rw [hgd, hfget]
      rfl
    have hihe := ih (e + 1) (by omega)
    have hrange : List.range' e (n + 1) = e :: List.range' (e + 1) n := rfl
    simp only [Trainer.runFrom, hstep, hihe, hrange, List.map_cons, hspec]

/-- Claim C7: Trainer.train runs exactly max_epochs epochs, each training first;
epoch e validates iff e is divisible by validation_frequencies[i], where i
counts how many of the thresholds validation_periods[1], validation_periods[2],
... have been reached by epoch e (the stateful index advances at most one
threshold per epoch, which under the strictly increasing periods of the
configurations coincides with the count); the validation branch logs images and
disables train mode around the validation pass. -/
theorem c7_trainer_schedule (cfg : Trainer.TConfig)
    (hs : List.Sorted (fun a b => a < b) (cfg.validation_periods.drop 1))
    (hlast : ∃ t ∈ cfg.validation_periods.drop 1, cfg.max_epochs ≤ t)
    (hflen : cfg.validation_periods.length ≤ cfg.validation_frequencies.length + 1)
    (hfpos : ∀ q ∈ cfg.validation_frequencies, 0 < q) :
    Trainer.run cfg = some (Trainer.specRun cfg)
    ∧ (Trainer.specRun cfg).length = cfg.max_epochs
    ∧ (∀ e, e < cfg.max_epochs →
        (Trainer.specRun cfg).get? e = some (Trainer.specEpoch cfg e))
    ∧ (∀ (e : ℕ) (v : Bool), (Trainer.epochTrace e v).take 2
        = [Trainer.TAction.setMode true, Trainer.TAction.trainCall e false])
    ∧ (∀ e : ℕ, Trainer.epochTrace e true
        = [Trainer.TAction.setMode true, Trainer.TAction.trainCall e false,
           Trainer.TAction.logWithImages e, Trainer.TAction.setMode false,
           Trainer.TAction.trainCall e true, Trainer.TAction.logValidation e,
           Trainer.TAction.setMode true]) := by
  obtain ⟨t0, ht0, hl0⟩ := hlast
  refine ⟨?_, ?_, ?_, ?_, fun e => rfl⟩
  · have h := runFrom_spec cfg hs t0 ht0 hl0 hflen hfpos cfg.max_epochs 0 (by omega)
    rw [countLt_zero] at h
    unfold Trainer.run Trainer.specRun
    rw [List.range_eq_range' cfg.max_epochs]
    exact h
  · unfold Trainer.specRun
    rw [List.length_map, List.length_range]
  · intro e he
    unfold Trainer.specRun
    rw [List.get?_map, List.get?_range he]
    rfl
  · intro e v
    cases v <;> rfl

/-- Witness for C7 on the repository's default configuration. -/
theorem c7_trainer_schedule_witness :
    Trainer.run trainerCfg = some (Trainer.specRun trainerCfg)
    ∧ (Trainer.specRun trainerCfg).length = 101 := by
  have h := c7_trainer_schedule trainerCfg (by decide) (by decide) (by decide)
    (by decide)
  exact ⟨h.1, h.2.1⟩
